import Mathlib

/-!
Shallow embedding of the pyoptions library (src/pyoptions/BlackScholes.py and
src/pyoptions/Binomial.py) over the real numbers, together with theorems
settling the specification claims.

The scipy helpers stats.norm.pdf and stats.norm.cdf are modelled by the
standard normal density and its cumulative integral; scipy.optimize.newton is
modelled as an abstract root-finding parameter, since the library call
delegates the whole computation to scipy.
-/

open MeasureTheory Set

namespace PyOptions

/-- Python str.lower for the ASCII option-type discriminators: lower-cases
every character of the string. -/
def pyLower (s : String) : String := String.mk (s.data.map Char.toLower)

/-- Standard normal probability density, modelling scipy stats.norm.pdf. -/
noncomputable def normPdf (x : ℝ) : ℝ :=
  Real.exp (-(x ^ 2) / 2) / Real.sqrt (2 * Real.pi)

/-- Standard normal cumulative distribution, modelling scipy stats.norm.cdf. -/
noncomputable def normCdf (x : ℝ) : ℝ :=
  ∫ t in Iic x, normPdf t

/-- The standard normal density is nonnegative. -/
theorem normPdf_nonneg (x : ℝ) : 0 ≤ normPdf x := by
  rw [normPdf]
  positivity

/-- The standard normal density is bounded by its value at 0. -/
theorem normPdf_le (x : ℝ) : normPdf x ≤ 1 / Real.sqrt (2 * Real.pi) := by
  rw [normPdf]
  rw [div_le_div_iff_of_pos_right (Real.sqrt_pos.mpr (by positivity))]
  rw [Real.exp_le_one_iff]
  nlinarith [sq_nonneg x]

/-- The standard normal density is an even function. -/
theorem normPdf_even (x : ℝ) : normPdf (-x) = normPdf x := by
  rw [normPdf, normPdf, neg_sq]

/-- The standard normal density is integrable over the reals. -/
theorem integrable_normPdf : Integrable normPdf := by
  have h := (integrable_exp_neg_mul_sq (show (0:ℝ) < 1/2 by norm_num)).div_const
    (Real.sqrt (2 * Real.pi))
  refine h.congr ?_
  filter_upwards with x
  rw [normPdf]
  congr 1
  ring_nf

/-- The standard normal density integrates to 1. -/
theorem integral_normPdf : ∫ x, normPdf x = 1 := by
  have h : ∫ x, normPdf x =
      (∫ x : ℝ, Real.exp (-(1/2) * x ^ 2)) / Real.sqrt (2 * Real.pi) := by
    rw [← integral_div]
    congr 1
    funext x
    rw [normPdf]
    congr 2
    ring
  rw [h, integral_gaussian]
  rw [show Real.pi / (1/2) = 2 * Real.pi by ring]
  have : Real.sqrt (2 * Real.pi) ≠ 0 := ne_of_gt (Real.sqrt_pos.mpr (by positivity))
  field_simp

/-- Splitting the full Gaussian integral at x. -/
theorem normCdf_add_Ioi (x : ℝ) : normCdf x + ∫ t in Ioi x, normPdf t = 1 := by
  rw [normCdf, intervalIntegral.integral_Iic_add_Ioi integrable_normPdf.integrableOn
    integrable_normPdf.integrableOn, integral_normPdf]

/-- Reflection identity of the standard normal cumulative distribution. -/
theorem normCdf_neg (x : ℝ) : normCdf (-x) = 1 - normCdf x := by
  have hcomp := integral_comp_neg_Iic (-x) normPdf
  rw [neg_neg] at hcomp
  have h1 : normCdf (-x) = ∫ t in Ioi x, normPdf t := by
    rw [normCdf, ← hcomp]
    simp only [normPdf_even]
  have h2 := normCdf_add_Ioi x
  linarith [h1, h2]

/-- The standard normal cumulative distribution at 0 is one half. -/
theorem normCdf_zero : normCdf 0 = 1 / 2 := by
  have h := normCdf_neg 0
  rw [neg_zero] at h
  linarith

/-- The standard normal cumulative distribution is nonnegative. -/
theorem normCdf_nonneg (x : ℝ) : 0 ≤ normCdf x :=
  setIntegral_nonneg measurableSet_Iic (fun t _ => normPdf_nonneg t)

/-- The standard normal cumulative distribution is at most 1. -/
theorem normCdf_le_one (x : ℝ) : normCdf x ≤ 1 := by
  have h := normCdf_add_Ioi x
  have : 0 ≤ ∫ t in Ioi x, normPdf t :=
    setIntegral_nonneg measurableSet_Ioi (fun t _ => normPdf_nonneg t)
  linarith

/-- Splitting the cumulative distribution across an interval. -/
theorem normCdf_split {a b : ℝ} (hab : a ≤ b) :
    normCdf b = normCdf a + ∫ t in Ioc a b, normPdf t := by
  rw [normCdf, normCdf, ← setIntegral_union (Iic_disjoint_Ioc le_rfl) measurableSet_Ioc
    integrable_normPdf.integrableOn integrable_normPdf.integrableOn,
    Iic_union_Ioc_eq_Iic hab]

/-- The standard normal cumulative distribution is monotone. -/
theorem normCdf_mono {a b : ℝ} (hab : a ≤ b) : normCdf a ≤ normCdf b := by
  rw [normCdf_split hab]
  have : 0 ≤ ∫ t in Ioc a b, normPdf t :=
    setIntegral_nonneg measurableSet_Ioc (fun t _ => normPdf_nonneg t)
  linarith

/-- Lipschitz-style bound for increments of the cumulative distribution. -/
theorem normCdf_sub_le {a b : ℝ} (hab : a ≤ b) :
    normCdf b - normCdf a ≤ (b - a) / Real.sqrt (2 * Real.pi) := by
  rw [normCdf_split hab]
  have h1 : (∫ t in Ioc a b, normPdf t) ≤
      ∫ _ in Ioc a b, 1 / Real.sqrt (2 * Real.pi) := by
    refine setIntegral_mono_on integrable_normPdf.integrableOn
      (integrableOn_const.mpr (Or.inr measure_Ioc_lt_top)) measurableSet_Ioc ?_
    exact fun t _ => normPdf_le t
  have h2 : (∫ _ in Ioc a b, 1 / Real.sqrt (2 * Real.pi)) =
      (b - a) / Real.sqrt (2 * Real.pi) := by
    rw [setIntegral_const, Real.volume_Ioc, ENNReal.toReal_ofReal (by linarith),
      smul_eq_mul]
    ring
  linarith

namespace BlackScholes

/-- From BlackScholes._d1:
(np.log(Price / Strike) + (RiskFreeRate + Volatility ** 2 / 2) * Time / 365)
/ (Volatility * np.sqrt(Time / 365)). -/
noncomputable def d1 (Price Strike Volatility Time RiskFreeRate : ℝ) : ℝ :=
  (Real.log (Price / Strike) + (RiskFreeRate + Volatility ^ 2 / 2) * Time / 365) /
    (Volatility * Real.sqrt (Time / 365))

/-- From BlackScholes._d2: _d1(...) - Volatility * np.sqrt(Time / 365). -/
noncomputable def d2 (Price Strike Volatility Time RiskFreeRate : ℝ) : ℝ :=
  d1 Price Strike Volatility Time RiskFreeRate - Volatility * Real.sqrt (Time / 365)

/-- From BlackScholes.CallOptionPrice:
Price * cdf(d1) - Strike * np.exp(-RiskFreeRate * Time) * cdf(d2). -/
noncomputable def CallOptionPrice (Price Strike Volatility Time RiskFreeRate : ℝ) : ℝ :=
  Price * normCdf (d1 Price Strike Volatility Time RiskFreeRate) -
    Strike * Real.exp (-RiskFreeRate * Time) *
      normCdf (d2 Price Strike Volatility Time RiskFreeRate)

/-- From BlackScholes.PutOptionPrice: returns 0 when Time == 0, otherwise
Strike * np.exp(-RiskFreeRate * Time) * cdf(-d2) - Price * cdf(-d1). -/
noncomputable def PutOptionPrice (Price Strike Volatility Time RiskFreeRate : ℝ) : ℝ :=
  if Time = 0 then 0
  else
    Strike * Real.exp (-RiskFreeRate * Time) *
        normCdf (-(d2 Price Strike Volatility Time RiskFreeRate)) -
      Price * normCdf (-(d1 Price Strike Volatility Time RiskFreeRate))

/-- From BlackScholes.ImpliedVolatility.  The dispatch on OptionType is
case-sensitive in the source (plain == comparison, no .lower()); the value
returned in each accepted branch is optimize.newton applied to the price
function minus the premium, seeded at 0.1.  The scipy root finder is passed
in as the abstract argument newton; an unaccepted OptionType raises
ValueError, modelled as none. -/
noncomputable def ImpliedVolatility (newton : (ℝ → ℝ) → ℝ → ℝ)
    (Price Strike Time Premium RiskFreeRate : ℝ) (OptionType : String) : Option ℝ :=
  if OptionType = "call" then
    some (newton (fun x => CallOptionPrice Price Strike x Time RiskFreeRate - Premium) 0.1)
  else if OptionType = "put" then
    some (newton (fun x => PutOptionPrice Price Strike x Time RiskFreeRate - Premium) 0.1)
  else none

/-- From BlackScholes.Delta: dispatch on OptionType.lower(); call branch
returns cdf(d1), put branch returns cdf(d1) - 1, otherwise ValueError. -/
noncomputable def Delta (Price Strike Volatility Time RiskFreeRate : ℝ)
    (OptionType : String) : Option ℝ :=
  if pyLower OptionType = "call" then
    some (normCdf (d1 Price Strike Volatility Time RiskFreeRate))
  else if pyLower OptionType = "put" then
    some (normCdf (d1 Price Strike Volatility Time RiskFreeRate) - 1)
  else none

/-- From BlackScholes.Gamma: both accepted branches return
pdf(d1) / (Price * Volatility * np.sqrt(Time)). -/
noncomputable def Gamma (Price Strike Volatility Time RiskFreeRate : ℝ)
    (OptionType : String) : Option ℝ :=
  if pyLower OptionType = "call" then
    some (normPdf (d1 Price Strike Volatility Time RiskFreeRate) /
      (Price * Volatility * Real.sqrt Time))
  else if pyLower OptionType = "put" then
    some (normPdf (d1 Price Strike Volatility Time RiskFreeRate) /
      (Price * Volatility * Real.sqrt Time))
  else none

/-- From BlackScholes.Theta. -/
noncomputable def Theta (Price Strike Volatility Time RiskFreeRate : ℝ)
    (OptionType : String) : Option ℝ :=
  if pyLower OptionType = "call" then
    some (-Price * normPdf (d1 Price Strike Volatility Time RiskFreeRate) * Volatility /
        (2 * Real.sqrt Time) -
      RiskFreeRate * Strike * Real.exp (-RiskFreeRate * Time) *
        normCdf (d2 Price Strike Volatility Time RiskFreeRate))
  else if pyLower OptionType = "put" then
    some (-Price * normPdf (d1 Price Strike Volatility Time RiskFreeRate) * Volatility /
        (2 * Real.sqrt Time) +
      RiskFreeRate * Strike * Real.exp (-RiskFreeRate * Time) *
        normCdf (-(d2 Price Strike Volatility Time RiskFreeRate)))
  else none

/-- From BlackScholes.Vega: both accepted branches return
Price * pdf(d1) * np.sqrt(Time). -/
noncomputable def Vega (Price Strike Volatility Time RiskFreeRate : ℝ)
    (OptionType : String) : Option ℝ :=
  if pyLower OptionType = "call" then
    some (Price * normPdf (d1 Price Strike Volatility Time RiskFreeRate) * Real.sqrt Time)
  else if pyLower OptionType = "put" then
    some (Price * normPdf (d1 Price Strike Volatility Time RiskFreeRate) * Real.sqrt Time)
  else none

/-- From BlackScholes.Rho. -/
noncomputable def Rho (Price Strike Volatility Time RiskFreeRate : ℝ)
    (OptionType : String) : Option ℝ :=
  if pyLower OptionType = "call" then
    some (Strike * Time * Real.exp (-RiskFreeRate * Time) *
      normCdf (d1 Price Strike Volatility Time RiskFreeRate))
  else if pyLower OptionType = "put" then
    some (-Strike * Time * Real.exp (-RiskFreeRate * Time) *
      normCdf (-(d1 Price Strike Volatility Time RiskFreeRate)))
  else none

/-- From BlackScholes.Lambda: each accepted branch computes the corresponding
option price, calls Delta with the same OptionType, and returns
delta * Price / value. -/
noncomputable def Lambda (Price Strike Volatility Time RiskFreeRate : ℝ)
    (OptionType : String) : Option ℝ :=
  if pyLower OptionType = "call" then
    (Delta Price Strike Volatility Time RiskFreeRate OptionType).map
      (fun delta => delta * Price / CallOptionPrice Price Strike Volatility Time RiskFreeRate)
  else if pyLower OptionType = "put" then
    (Delta Price Strike Volatility Time RiskFreeRate OptionType).map
      (fun delta => delta * Price / PutOptionPrice Price Strike Volatility Time RiskFreeRate)
  else none

/-- From BlackScholes.Vanna; the put branch is the call branch times -1. -/
noncomputable def Vanna (Price Strike Volatility Time RiskFreeRate : ℝ)
    (OptionType : String) : Option ℝ :=
  if pyLower OptionType = "call" then
    some (Real.exp (-RiskFreeRate * Time / 365) * Real.sqrt (Time / 365) *
      (d2 Price Strike Volatility Time RiskFreeRate / Volatility) *
      Real.exp (-(d1 Price Strike Volatility Time RiskFreeRate ^ 2) / 2) / (2 * Real.pi))
  else if pyLower OptionType = "put" then
    some (Real.exp (-RiskFreeRate * Time / 365) * Real.sqrt (Time / 365) *
      (d2 Price Strike Volatility Time RiskFreeRate / Volatility) *
      Real.exp (-(d1 Price Strike Volatility Time RiskFreeRate ^ 2) / 2) / (2 * Real.pi) * -1)
  else none

end BlackScholes

namespace Lattice

/-- From Lattice.Binomial: dt = Time / NumSteps. -/
noncomputable def dt (Time : ℝ) (NumSteps : ℕ) : ℝ := Time / NumSteps

/-- From Lattice.Binomial: u = np.exp(Volatility * np.sqrt(dt)). -/
noncomputable def u (Time Volatility : ℝ) (NumSteps : ℕ) : ℝ :=
  Real.exp (Volatility * Real.sqrt (dt Time NumSteps))

/-- From Lattice.Binomial: d = 1 / u. -/
noncomputable def d (Time Volatility : ℝ) (NumSteps : ℕ) : ℝ :=
  1 / u Time Volatility NumSteps

/-- From Lattice.Binomial: q = (np.exp(RiskFreeRate * dt) - d) / (u - d). -/
noncomputable def q (RiskFreeRate Time Volatility : ℝ) (NumSteps : ℕ) : ℝ :=
  (Real.exp (RiskFreeRate * dt Time NumSteps) - d Time Volatility NumSteps) /
    (u Time Volatility NumSteps - d Time Volatility NumSteps)

/-- From Lattice.Binomial: disc = np.exp(-RiskFreeRate * dt). -/
noncomputable def disc (RiskFreeRate Time : ℝ) (NumSteps : ℕ) : ℝ :=
  Real.exp (-RiskFreeRate * dt Time NumSteps)

/-- Stock price grid of Lattice.Binomial: S[0, :] = Price and
S[i, :] = S[i-1, :] * u, so entry (i, j) only depends on the row i. -/
noncomputable def S (Price Time Volatility : ℝ) (NumSteps : ℕ) : ℕ → ℕ → ℝ
  | 0, _ => Price
  | i + 1, j => S Price Time Volatility NumSteps i j * u Time Volatility NumSteps

/-- Option value grid of Lattice.Binomial right after the payoff loop
(for i in range(NumSteps + 1): for j in range(NumSteps - i + 1):
C[i, j] = max(S[i, j] - Strike, 0)); entries the loop does not touch keep
the np.zeros initial value. -/
noncomputable def C0 (Price Strike Time Volatility : ℝ) (NumSteps : ℕ) (i j : ℕ) : ℝ :=
  if j ≤ NumSteps - i then max (S Price Time Volatility NumSteps i j - Strike) 0 else 0

/-- Contents of row (NumSteps - k) of the value grid C after the backward
induction loop has processed it (k = 0 is the terminal row, untouched by the
loop).  For the processed row i = NumSteps - (k+1), columns j ≤ i receive
disc * (q * C[i+1, j] + (1-q) * C[i+1, j+1]) and the remaining columns keep
their payoff-loop value. -/
noncomputable def row (Price Strike RiskFreeRate Time Volatility : ℝ)
    (NumSteps : ℕ) : ℕ → ℕ → ℝ
  | 0, j => C0 Price Strike Time Volatility NumSteps NumSteps j
  | k + 1, j =>
    if j ≤ NumSteps - (k + 1) then
      disc RiskFreeRate Time NumSteps *
        (q RiskFreeRate Time Volatility NumSteps *
            row Price Strike RiskFreeRate Time Volatility NumSteps k j +
          (1 - q RiskFreeRate Time Volatility NumSteps) *
            row Price Strike RiskFreeRate Time Volatility NumSteps k (j + 1))
    else C0 Price Strike Time Volatility NumSteps (NumSteps - (k + 1)) j

/-- Final value grid of Lattice.Binomial indexed as C[i, j]. -/
noncomputable def V (Price Strike RiskFreeRate Time Volatility : ℝ)
    (NumSteps : ℕ) (i j : ℕ) : ℝ :=
  row Price Strike RiskFreeRate Time Volatility NumSteps (NumSteps - i) j

/-- From Lattice.Binomial: the returned value C[0, 0]. -/
noncomputable def Binomial (Price Strike RiskFreeRate Time Volatility : ℝ)
    (NumSteps : ℕ) : ℝ :=
  row Price Strike RiskFreeRate Time Volatility NumSteps NumSteps 0

/-- Closed form asserted by the specification claim about Lattice.Binomial:
disc^n * q^n * max(Price * u^n - Strike, 0) with u = exp(sigma * sqrt(T/n)),
q = (exp(r * T/n) - 1/u) / (u - 1/u) and disc = exp(-r * T/n). -/
noncomputable def BinomialSpecValue (Price Strike RiskFreeRate Time Volatility : ℝ)
    (NumSteps : ℕ) : ℝ :=
  (Real.exp (-RiskFreeRate * (Time / NumSteps))) ^ NumSteps *
    ((Real.exp (RiskFreeRate * (Time / NumSteps)) -
          1 / Real.exp (Volatility * Real.sqrt (Time / NumSteps))) /
        (Real.exp (Volatility * Real.sqrt (Time / NumSteps)) -
          1 / Real.exp (Volatility * Real.sqrt (Time / NumSteps)))) ^ NumSteps *
    max (Price * Real.exp (Volatility * Real.sqrt (Time / NumSteps)) ^ NumSteps - Strike) 0

/-- The stock grid of Lattice.Binomial is constant along each row:
entry (i, j) is Price * u ^ i for every column j. -/
theorem S_eq (Price Time Volatility : ℝ) (NumSteps : ℕ) (i j : ℕ) :
    S Price Time Volatility NumSteps i j =
      Price * u Time Volatility NumSteps ^ i := by
  induction i with
  | zero => simp [S]
  | succ i ih => rw [S, ih, pow_succ]; ring

/-- After the backward pass has processed k rows, every column of the
current row other than column 0 holds the value 0. -/
theorem row_eq_zero_of_one_le (Price Strike RiskFreeRate Time Volatility : ℝ)
    (NumSteps : ℕ) (k j : ℕ) (hk : k ≤ NumSteps) (hj1 : 1 ≤ j)
    (hj2 : j ≤ NumSteps - k) :
    row Price Strike RiskFreeRate Time Volatility NumSteps k j = 0 := by
  induction k generalizing j with
  | zero =>
    rw [row, C0, if_neg]
    omega
  | succ k ih =>
    rw [row, if_pos hj2, ih j (by omega) hj1 (by omega),
      ih (j + 1) (by omega) (by omega) (by omega)]
    ring

/-- After the backward pass has processed k rows, column 0 of the current
row holds (disc * q) ^ k times the single populated terminal payoff. -/
theorem row_head (Price Strike RiskFreeRate Time Volatility : ℝ)
    (NumSteps : ℕ) (k : ℕ) (hk : k ≤ NumSteps) :
    row Price Strike RiskFreeRate Time Volatility NumSteps k 0 =
      (disc RiskFreeRate Time NumSteps * q RiskFreeRate Time Volatility NumSteps) ^ k *
        max (Price * u Time Volatility NumSteps ^ NumSteps - Strike) 0 := by
  induction k with
  | zero =>
    rw [row, C0, if_pos (by omega), S_eq]
    ring
  | succ k ih =>
    rw [row, if_pos (by omega), ih (by omega),
      row_eq_zero_of_one_le Price Strike RiskFreeRate Time Volatility NumSteps k 1
        (by omega) le_rfl (by omega), pow_succ]
    ring

end Lattice

/-! Helper computations for the worked Black-Scholes example
S = 100, K = 100, sigma = 0.2, T = 365, r = 0.02. -/

/-- At the example inputs d1 evaluates to 0.2. -/
theorem d1_example : BlackScholes.d1 100 100 0.2 365 0.02 = 0.2 := by
  rw [BlackScholes.d1]
  norm_num

/-- At the example inputs d2 evaluates to 0. -/
theorem d2_example : BlackScholes.d2 100 100 0.2 365 0.02 = 0 := by
  rw [BlackScholes.d2, d1_example]
  norm_num

/-- The example call price in terms of the cumulative distribution. -/
theorem callPriceExample_eq :
    BlackScholes.CallOptionPrice 100 100 0.2 365 0.02 =
      100 * normCdf 0.2 - 100 * Real.exp (-7.3) * (1 / 2) := by
  rw [BlackScholes.CallOptionPrice, d1_example, d2_example, normCdf_zero]
  norm_num

/-- Lower bound on the cumulative distribution at 0.2. -/
theorem normCdf_example_lower : 1 / 2 ≤ normCdf 0.2 := by
  have h := normCdf_mono (show (0:ℝ) ≤ 0.2 by norm_num)
  rw [normCdf_zero] at h
  exact h

/-- Upper bound on the cumulative distribution at 0.2. -/
theorem normCdf_example_upper : normCdf 0.2 ≤ 0.58 := by
  have hsqrt : (2.5 : ℝ) ≤ Real.sqrt (2 * Real.pi) := by
    rw [Real.le_sqrt (by norm_num) (by positivity)]
    nlinarith [Real.pi_gt_d6]
  have hsub := normCdf_sub_le (show (0:ℝ) ≤ 0.2 by norm_num)
  rw [normCdf_zero] at hsub
  have hpos : (0:ℝ) < Real.sqrt (2 * Real.pi) := by positivity
  have hdiv : ((0.2:ℝ) - 0) / Real.sqrt (2 * Real.pi) ≤ 0.08 := by
    rw [div_le_iff₀ hpos]
    nlinarith
  linarith

/-- The discount factor of the example is at most 1/128. -/
theorem exp_example_le : Real.exp (-7.3 : ℝ) ≤ 1 / 128 := by
  have h2 : (2:ℝ) ≤ Real.exp 1 := by nlinarith [Real.add_one_le_exp (1:ℝ)]
  have h7 : Real.exp 7 = (Real.exp 1) ^ 7 := by rw [← Real.exp_nat_mul]; norm_num
  have h128 : (128:ℝ) ≤ Real.exp 7 := by
    rw [h7]
    calc (128:ℝ) = 2 ^ 7 := by norm_num
    _ ≤ (Real.exp 1) ^ 7 := by apply pow_le_pow_left₀ (by norm_num) h2
  have h : (128 : ℝ) ≤ Real.exp (7.3 : ℝ) :=
    le_trans h128 (Real.exp_le_exp.mpr (by norm_num))
  rw [Real.exp_neg, ← one_div]
  exact one_div_le_one_div_of_le (by norm_num) h

/-- The example call price is strictly between 49 and 58. -/
theorem callPriceExample_bounds :
    49 < BlackScholes.CallOptionPrice 100 100 0.2 365 0.02 ∧
      BlackScholes.CallOptionPrice 100 100 0.2 365 0.02 < 58 := by
  rw [callPriceExample_eq]
  have h1 := normCdf_example_lower
  have h2 := normCdf_example_upper
  have h3 := exp_example_le
  have h4 := Real.exp_pos (-7.3 : ℝ)
  constructor <;> nlinarith

/-- The lower end of the sanity bracket claimed by the specification,
evaluated with the program's own discount, exceeds 99. -/
theorem bracket_lower_gt :
    (99 : ℝ) < 100 - 100 * Real.exp (-(0.02 * 365) : ℝ) := by
  have h : Real.exp (-(0.02 * 365) : ℝ) = Real.exp (-7.3 : ℝ) := by norm_num
  have h3 := exp_example_le
  have h4 := Real.exp_pos (-7.3 : ℝ)
  rw [h]
  nlinarith

/-! Claim theorems about the analytic pricer. -/

/-- C4 (counterexample): at S = 100, K = 100, sigma = 0.2, T = 365,
r = 0.02 the code's CallOptionPrice does not lie strictly between
max(S - K * e^(-r*T), 0) and S under the program's own discounting
convention e^(-r*T) with T in days: the returned value is below the
claimed lower end of the bracket.  It is also larger than 20, hence not
approximately 8.92. -/
theorem call_price_example_not_as_claimed :
    BlackScholes.CallOptionPrice 100 100 0.2 365 0.02 <
      max (100 - 100 * Real.exp (-(0.02 * 365) : ℝ)) 0 ∧
    20 < BlackScholes.CallOptionPrice 100 100 0.2 365 0.02 := by
  have hb := bracket_lower_gt
  have hc := callPriceExample_bounds
  constructor
  · rw [max_eq_left (by linarith)]
    linarith
  · linarith

/-- C4 (amended): at the example inputs the code returns a value strictly
between 49 and 58 (approximately 57.9, not 8.92, because the discount uses
e^(-r*T) with T counted in days, here e^(-7.3)); the value therefore lies
below max(S - K * e^(-r*T), 0) which exceeds 99 under the same
convention. -/
theorem call_price_example_amended :
    49 < BlackScholes.CallOptionPrice 100 100 0.2 365 0.02 ∧
    BlackScholes.CallOptionPrice 100 100 0.2 365 0.02 < 58 ∧
    BlackScholes.CallOptionPrice 100 100 0.2 365 0.02 <
      max (100 - 100 * Real.exp (-(0.02 * 365) : ℝ)) 0 := by
  have hb := bracket_lower_gt
  have hc := callPriceExample_bounds
  refine ⟨hc.1, hc.2, ?_⟩
  rw [max_eq_left (by linarith)]
  linarith

/-- C5: put-call parity holds exactly in real arithmetic under the
program's own time-unit convention: CallOptionPrice - PutOptionPrice
equals S - K * e^(-r*T) whenever S, K, sigma, T are positive. -/
theorem put_call_parity (Price Strike Volatility Time RiskFreeRate : ℝ)
    (hP : 0 < Price) (hK : 0 < Strike) (hV : 0 < Volatility) (hT : 0 < Time) :
    BlackScholes.CallOptionPrice Price Strike Volatility Time RiskFreeRate -
      BlackScholes.PutOptionPrice Price Strike Volatility Time RiskFreeRate =
      Price - Strike * Real.exp (-RiskFreeRate * Time) := by
  rw [BlackScholes.CallOptionPrice, BlackScholes.PutOptionPrice, if_neg hT.ne',
    normCdf_neg, normCdf_neg]
  ring

/-- Witness for the put-call parity theorem at S = K = sigma = T = 1,
r = 0. -/
theorem put_call_parity_witness :
    ((0:ℝ) < 1 ∧ (0:ℝ) < 1 ∧ (0:ℝ) < 1 ∧ (0:ℝ) < 1) ∧
    BlackScholes.CallOptionPrice 1 1 1 1 0 - BlackScholes.PutOptionPrice 1 1 1 1 0 =
      1 - 1 * Real.exp (-0 * 1) :=
  ⟨⟨one_pos, one_pos, one_pos, one_pos⟩,
    put_call_parity 1 1 1 1 0 one_pos one_pos one_pos one_pos⟩

/-- C6: for every S, K, sigma, r the put price at Time = 0 is exactly 0;
the expired-option guard is the first branch of the definition, taken
before d1 or d2 is ever formed. -/
theorem put_price_at_expiry (Price Strike Volatility RiskFreeRate : ℝ) :
    BlackScholes.PutOptionPrice Price Strike Volatility 0 RiskFreeRate = 0 := by
  rw [BlackScholes.PutOptionPrice, if_pos rfl]

/-- C7: the call branch of Delta returns the cumulative normal at d1, the
put branch returns the same value minus one, and the two therefore differ
by exactly 1. -/
theorem delta_call_put_parity (Price Strike Volatility Time RiskFreeRate : ℝ)
    (hP : 0 < Price) (hK : 0 < Strike) (hV : 0 < Volatility) (hT : 0 < Time) :
    BlackScholes.Delta Price Strike Volatility Time RiskFreeRate "call" =
      some (normCdf (BlackScholes.d1 Price Strike Volatility Time RiskFreeRate)) ∧
    BlackScholes.Delta Price Strike Volatility Time RiskFreeRate "put" =
      some (normCdf (BlackScholes.d1 Price Strike Volatility Time RiskFreeRate) - 1) ∧
    (BlackScholes.Delta Price Strike Volatility Time RiskFreeRate "call").getD 0 -
      (BlackScholes.Delta Price Strike Volatility Time RiskFreeRate "put").getD 0 = 1 := by
  have hcall : BlackScholes.Delta Price Strike Volatility Time RiskFreeRate "call" =
      some (normCdf (BlackScholes.d1 Price Strike Volatility Time RiskFreeRate)) := by
    rw [BlackScholes.Delta, if_pos (by decide)]
  have hput : BlackScholes.Delta Price Strike Volatility Time RiskFreeRate "put" =
      some (normCdf (BlackScholes.d1 Price Strike Volatility Time RiskFreeRate) - 1) := by
    rw [BlackScholes.Delta, if_neg (by decide), if_pos (by decide)]
  refine ⟨hcall, hput, ?_⟩
  rw [hcall, hput, Option.getD_some, Option.getD_some]
  ring

/-- Witness for the Delta parity theorem at S = K = sigma = T = 1, r = 0. -/
theorem delta_call_put_parity_witness :
    ((0:ℝ) < 1 ∧ (0:ℝ) < 1 ∧ (0:ℝ) < 1 ∧ (0:ℝ) < 1) ∧
    (BlackScholes.Delta 1 1 1 1 0 "call" =
      some (normCdf (BlackScholes.d1 1 1 1 1 0)) ∧
    BlackScholes.Delta 1 1 1 1 0 "put" =
      some (normCdf (BlackScholes.d1 1 1 1 1 0) - 1) ∧
    (BlackScholes.Delta 1 1 1 1 0 "call").getD 0 -
      (BlackScholes.Delta 1 1 1 1 0 "put").getD 0 = 1) :=
  ⟨⟨one_pos, one_pos, one_pos, one_pos⟩,
    delta_call_put_parity 1 1 1 1 0 one_pos one_pos one_pos one_pos⟩

/-- C8: the call price equals S * Phi(d1) - K * e^(-r*T) * Phi(d2) with
d1 = (ln(S/K) + (r + sigma^2/2) * (T/365)) / (sigma * sqrt(T/365)) and
d2 = d1 - sigma * sqrt(T/365), written exactly as the specification
states them. -/
theorem call_price_formula (Price Strike Volatility Time RiskFreeRate : ℝ)
    (hP : 0 < Price) (hK : 0 < Strike) (hV : 0 < Volatility) (hT : 0 < Time) :
    BlackScholes.CallOptionPrice Price Strike Volatility Time RiskFreeRate =
      Price * normCdf ((Real.log (Price / Strike) +
          (RiskFreeRate + Volatility ^ 2 / 2) * (Time / 365)) /
            (Volatility * Real.sqrt (Time / 365))) -
        Strike * Real.exp (-(RiskFreeRate * Time)) *
          normCdf ((Real.log (Price / Strike) +
              (RiskFreeRate + Volatility ^ 2 / 2) * (Time / 365)) /
                (Volatility * Real.sqrt (Time / 365)) -
            Volatility * Real.sqrt (Time / 365)) := by
  have harg : (RiskFreeRate + Volatility ^ 2 / 2) * Time / 365 =
      (RiskFreeRate + Volatility ^ 2 / 2) * (Time / 365) := by ring
  rw [BlackScholes.CallOptionPrice, BlackScholes.d2, BlackScholes.d1, harg, neg_mul]

/-- Witness for the call price formula theorem at S = K = sigma = T = 1,
r = 0. -/
theorem call_price_formula_witness :
    ((0:ℝ) < 1 ∧ (0:ℝ) < 1 ∧ (0:ℝ) < 1 ∧ (0:ℝ) < 1) ∧
    BlackScholes.CallOptionPrice 1 1 1 1 0 =
      1 * normCdf ((Real.log (1 / 1) + (0 + 1 ^ 2 / 2) * (1 / 365)) /
          (1 * Real.sqrt (1 / 365))) -
        1 * Real.exp (-(0 * 1)) *
          normCdf ((Real.log (1 / 1) + (0 + 1 ^ 2 / 2) * (1 / 365)) /
              (1 * Real.sqrt (1 / 365)) - 1 * Real.sqrt (1 / 365)) :=
  ⟨⟨one_pos, one_pos, one_pos, one_pos⟩,
    call_price_formula 1 1 1 1 0 one_pos one_pos one_pos one_pos⟩

/-- C3 (counterexample): the mixed-case discriminator "Call" lower-cases to
"call", yet ImpliedVolatility rejects it, because its dispatch compares the
raw string: the claim that every type-discriminated function accepts any
case-insensitive spelling of call/put is false. -/
theorem implied_volatility_rejects_mixed_case :
    BlackScholes.ImpliedVolatility (fun _ x0 => x0) 100 100 30 5 0.02 "Call" = none ∧
    pyLower "Call" = "call" := by
  constructor
  · rw [BlackScholes.ImpliedVolatility, if_neg (by decide), if_neg (by decide)]
  · decide

/-- C3 (amended): Delta, Gamma, Theta, Vega, Rho, Lambda and Vanna raise
InvalidArgument exactly when the lower-cased discriminator is neither
"call" nor "put" (so mixed-case spellings are accepted and "straddle" is
rejected), while ImpliedVolatility compares the discriminator
case-sensitively and raises exactly when it is not literally "call" or
"put". -/
theorem option_type_dispatch (Price Strike Volatility Time Premium RiskFreeRate : ℝ)
    (newton : (ℝ → ℝ) → ℝ → ℝ) (OptionType : String) :
    (BlackScholes.Delta Price Strike Volatility Time RiskFreeRate OptionType = none ↔
      ¬(pyLower OptionType = "call" ∨ pyLower OptionType = "put")) ∧
    (BlackScholes.Gamma Price Strike Volatility Time RiskFreeRate OptionType = none ↔
      ¬(pyLower OptionType = "call" ∨ pyLower OptionType = "put")) ∧
    (BlackScholes.Theta Price Strike Volatility Time RiskFreeRate OptionType = none ↔
      ¬(pyLower OptionType = "call" ∨ pyLower OptionType = "put")) ∧
    (BlackScholes.Vega Price Strike Volatility Time RiskFreeRate OptionType = none ↔
      ¬(pyLower OptionType = "call" ∨ pyLower OptionType = "put")) ∧
    (BlackScholes.Rho Price Strike Volatility Time RiskFreeRate OptionType = none ↔
      ¬(pyLower OptionType = "call" ∨ pyLower OptionType = "put")) ∧
    (BlackScholes.Lambda Price Strike Volatility Time RiskFreeRate OptionType = none ↔
      ¬(pyLower OptionType = "call" ∨ pyLower OptionType = "put")) ∧
    (BlackScholes.Vanna Price Strike Volatility Time RiskFreeRate OptionType = none ↔
      ¬(pyLower OptionType = "call" ∨ pyLower OptionType = "put")) ∧
    (BlackScholes.ImpliedVolatility newton Price Strike Time Premium RiskFreeRate
        OptionType = none ↔
      ¬(OptionType = "call" ∨ OptionType = "put")) := by
  refine ⟨?_, ?_, ?_, ?_, ?_, ?_, ?_, ?_⟩
  · rw [BlackScholes.Delta]
    split_ifs with h1 h2 <;> simp [*]
  · rw [BlackScholes.Gamma]
    split_ifs with h1 h2 <;> simp [*]
  · rw [BlackScholes.Theta]
    split_ifs with h1 h2 <;> simp [*]
  · rw [BlackScholes.Vega]
    split_ifs with h1 h2 <;> simp [*]
  · rw [BlackScholes.Rho]
    split_ifs with h1 h2 <;> simp [*]
  · rw [BlackScholes.Lambda]
    split_ifs with h1 h2 <;> simp [BlackScholes.Delta, *]
  · rw [BlackScholes.Vanna]
    split_ifs with h1 h2 <;> simp [*]
  · rw [BlackScholes.ImpliedVolatility]
    split_ifs with h1 h2 <;> simp [*]

/-! Claim theorems about the binomial lattice. -/

/-- C1 (counterexample): it is not the case that the layer read at row n by
the backward induction holds the payoff max(S[n, j] - K, 0) at every node
j in [0, n].  Concretely, with Price = 2, Strike = 1, RiskFreeRate = 0,
Time = 1, Volatility = 1 and n = 1 step, node j = 1 of the terminal row
holds 0 while its payoff max(S[1, 1] - 1, 0) = 2 * e - 1 is positive. -/
theorem terminal_layer_not_full_payoff :
    ¬ ∀ j : ℕ, j ≤ 1 →
      Lattice.C0 2 1 1 1 1 1 j = max (Lattice.S 2 1 1 1 1 j - 1) 0 := by
  intro h
  have h1 := h 1 le_rfl
  have hC : Lattice.C0 2 1 1 1 1 1 1 = 0 := by
    rw [Lattice.C0, if_neg]
    omega
  have hS : Lattice.S 2 1 1 1 1 1 = 2 * Real.exp 1 := by
    rw [Lattice.S_eq, Lattice.u, Lattice.dt]
    norm_num
  rw [hC, hS] at h1
  have he : (1 : ℝ) ≤ Real.exp 1 := Real.one_le_exp (by norm_num)
  have hpos : 0 < 2 * Real.exp 1 - 1 := by nlinarith
  rw [max_eq_left hpos.le] at h1
  linarith [h1]

/-- C1 (amended): in Lattice.Binomial the layer read at the final step n by
the backward induction holds the terminal payoff max(Price * u^n - Strike, 0)
at node 0 only; every node j in [1, n] of that layer holds 0, even though the
asset grid gives every node of row n the same price Price * u^n. -/
theorem terminal_layer_payoff_only_at_node_zero
    (Price Strike Time Volatility : ℝ) (NumSteps j : ℕ)
    (hn : 1 ≤ NumSteps) (hj1 : 1 ≤ j) (hj2 : j ≤ NumSteps) :
    Lattice.C0 Price Strike Time Volatility NumSteps NumSteps 0 =
      max (Price * Lattice.u Time Volatility NumSteps ^ NumSteps - Strike) 0 ∧
    Lattice.C0 Price Strike Time Volatility NumSteps NumSteps j = 0 ∧
    Lattice.S Price Time Volatility NumSteps NumSteps j =
      Price * Lattice.u Time Volatility NumSteps ^ NumSteps := by
  refine ⟨?_, ?_, Lattice.S_eq Price Time Volatility NumSteps NumSteps j⟩
  · rw [Lattice.C0, if_pos (by omega), Lattice.S_eq]
  · rw [Lattice.C0, if_neg]
    omega

/-- Witness for the amended C1 theorem at NumSteps = 1, j = 1. -/
theorem terminal_layer_payoff_only_at_node_zero_witness :
    1 ≤ 1 ∧
    (Lattice.C0 2 1 1 1 1 1 0 = max (2 * Lattice.u 1 1 1 ^ 1 - 1) 0 ∧
      Lattice.C0 2 1 1 1 1 1 1 = 0 ∧
      Lattice.S 2 1 1 1 1 1 = 2 * Lattice.u 1 1 1 ^ 1) :=
  ⟨le_rfl, terminal_layer_payoff_only_at_node_zero 2 1 1 1 1 1 le_rfl le_rfl le_rfl⟩

/-- C2: for every step count n ≥ 1 and all inputs, Lattice.Binomial returns
exactly disc^n * q^n * max(Price * u^n - Strike, 0): only the single
populated terminal node contributes, because the asset grid is constant
across columns within a row and the terminal row payoff sits at node 0
only. -/
theorem binomial_closed_form (Price Strike RiskFreeRate Time Volatility : ℝ)
    (NumSteps : ℕ) (hn : 1 ≤ NumSteps) :
    Lattice.Binomial Price Strike RiskFreeRate Time Volatility NumSteps =
      Lattice.BinomialSpecValue Price Strike RiskFreeRate Time Volatility NumSteps := by
  rw [Lattice.Binomial,
    Lattice.row_head Price Strike RiskFreeRate Time Volatility NumSteps NumSteps le_rfl,
    mul_pow]
  rw [Lattice.BinomialSpecValue]
  simp only [Lattice.disc, Lattice.q, Lattice.u, Lattice.d, Lattice.dt]

/-- Witness for the C2 theorem at NumSteps = 1. -/
theorem binomial_closed_form_witness :
    1 ≤ 1 ∧
    Lattice.Binomial 2 1 0 1 1 1 = Lattice.BinomialSpecValue 2 1 0 1 1 1 :=
  ⟨le_rfl, binomial_closed_form 2 1 0 1 1 1 le_rfl⟩

/-- C9: in Lattice.Binomial the per-step factors are dt = T/n,
u = exp(sigma * sqrt(dt)), d = 1/u, q = (exp(r * dt) - d) / (u - d) and
disc = exp(-r * dt); the backward induction satisfies
V[i, j] = disc * (q * V[i+1, j] + (1 - q) * V[i+1, j+1]) for every step
i < n and node j ≤ i; and the function returns V[0, 0]. -/
theorem binomial_factors_induction_result
    (Price Strike RiskFreeRate Time Volatility : ℝ) (NumSteps i j : ℕ)
    (hn : 1 ≤ NumSteps) (hi : i < NumSteps) (hj : j ≤ i) :
    Lattice.dt Time NumSteps = Time / NumSteps ∧
    Lattice.u Time Volatility NumSteps =
      Real.exp (Volatility * Real.sqrt (Lattice.dt Time NumSteps)) ∧
    Lattice.d Time Volatility NumSteps = 1 / Lattice.u Time Volatility NumSteps ∧
    Lattice.q RiskFreeRate Time Volatility NumSteps =
      (Real.exp (RiskFreeRate * Lattice.dt Time NumSteps) -
          Lattice.d Time Volatility NumSteps) /
        (Lattice.u Time Volatility NumSteps - Lattice.d Time Volatility NumSteps) ∧
    Lattice.disc RiskFreeRate Time NumSteps =
      Real.exp (-RiskFreeRate * Lattice.dt Time NumSteps) ∧
    Lattice.V Price Strike RiskFreeRate Time Volatility NumSteps i j =
      Lattice.disc RiskFreeRate Time NumSteps *
        (Lattice.q RiskFreeRate Time Volatility NumSteps *
            Lattice.V Price Strike RiskFreeRate Time Volatility NumSteps (i + 1) j +
          (1 - Lattice.q RiskFreeRate Time Volatility NumSteps) *
            Lattice.V Price Strike RiskFreeRate Time Volatility NumSteps (i + 1) (j + 1)) ∧
    Lattice.Binomial Price Strike RiskFreeRate Time Volatility NumSteps =
      Lattice.V Price Strike RiskFreeRate Time Volatility NumSteps 0 0 := by
  refine ⟨rfl, rfl, rfl, rfl, rfl, ?_, ?_⟩
  · have hk : NumSteps - i = (NumSteps - (i + 1)) + 1 := by omega
    rw [Lattice.V, hk, Lattice.row, if_pos (by omega)]
    rfl
  · rw [Lattice.Binomial, Lattice.V, Nat.sub_zero]

/-- Witness for the C9 theorem at NumSteps = 1, i = 0, j = 0. -/
theorem binomial_factors_induction_result_witness :
    (1 ≤ 1 ∧ 0 < 1 ∧ 0 ≤ 0) ∧
    (Lattice.dt 1 1 = 1 / (1 : ℕ) ∧
    Lattice.u 1 1 1 = Real.exp (1 * Real.sqrt (Lattice.dt 1 1)) ∧
    Lattice.d 1 1 1 = 1 / Lattice.u 1 1 1 ∧
    Lattice.q 0 1 1 1 =
      (Real.exp (0 * Lattice.dt 1 1) - Lattice.d 1 1 1) /
        (Lattice.u 1 1 1 - Lattice.d 1 1 1) ∧
    Lattice.disc 0 1 1 = Real.exp (-0 * Lattice.dt 1 1) ∧
    Lattice.V 2 1 0 1 1 1 0 0 =
      Lattice.disc 0 1 1 *
        (Lattice.q 0 1 1 1 * Lattice.V 2 1 0 1 1 1 1 0 +
          (1 - Lattice.q 0 1 1 1) * Lattice.V 2 1 0 1 1 1 1 1) ∧
    Lattice.Binomial 2 1 0 1 1 1 = Lattice.V 2 1 0 1 1 1 0 0) :=
  ⟨⟨le_rfl, Nat.zero_lt_one, le_rfl⟩,
    binomial_factors_induction_result 2 1 0 1 1 1 0 0 le_rfl Nat.zero_lt_one le_rfl⟩

end PyOptions
